import Mathlib

/-!
A shallow embedding of the four Beta-calibration model variants
(the classes named with the suffixes Cal, AMCal, ABCal and ACal in
betacal/beta_calibration.py) together with proofs about their
fit/predict behaviour.  Scores, labels and solver outputs are
idealised as real numbers; the external logistic-regression solver
is an abstract function parameter, and the parts of its behaviour
that the specification fixes (the recorded feature width, the zero
intercept under intercept suppression, the logistic form of the
probability predictor, the log-likelihood objective) are modelled
explicitly.  Python exceptions are modelled by the type PyError.
-/

set_option linter.unusedVariables false

namespace BetaCalib

noncomputable section

/-- Machine epsilon of the float64 dtype: np.finfo(df.dtype).eps, which both
fit and predict use as the clipping margin (lines 57, 110, 169, 200, 252,
284, 337, 367 of beta_calibration.py). -/
def npEps : ℝ := 1 / 2 ^ 52

/-- np.clip(s, eps, 1 - eps) on a single score value: the preprocessing
applied to every score at both fit time and predict time. -/
def npClip (s : ℝ) : ℝ := min (max s npEps) (1 - npEps)

/-- The logistic sigmoid scipy.special.expit. -/
def expit (z : ℝ) : ℝ := 1 / (1 + Real.exp (-z))

/-- Dot product of a coefficient list with a feature row. -/
def dot (u v : List ℝ) : ℝ := (List.zipWith (fun a b => a * b) u v).sum

/-- The state of a fitted sklearn LogisticRegression: its coefficient row
coef_[0], its scalar intercept intercept_[0], and the feature width it was
trained on (n_features_in_, which sklearn records at fit time). -/
structure FittedLR where
  coef : List ℝ
  intercept : ℝ
  nFeatures : ℕ

/-- The abstract external solver: from a feature matrix, a label vector, an
optional sample-weight vector and the fit-intercept flag it produces a raw
coefficient row and a raw intercept.  The regularisation penalty of the
concrete LogisticRegression is absorbed into the function itself. -/
def Solver : Type := List (List ℝ) → List ℕ → Option (List ℝ) → Bool → List ℝ × ℝ

/-- Modelled from the spec: fitting the external LogisticRegression.  It
returns the coefficient row, the intercept (which is 0.0 whenever the
intercept is suppressed with fit_intercept=False), and it records the width
of the training feature matrix. -/
def lrFit (solver : Solver) (x : List (List ℝ)) (y : List ℕ)
    (sw : Option (List ℝ)) (fitIntercept : Bool) : FittedLR :=
  let r := solver x y sw fitIntercept
  ⟨r.1, if fitIntercept then r.2 else 0, (x.headD []).length⟩

/-- Modelled from the spec: the positive-class probability
lr.predict_proba(row)[1] of a fitted LogisticRegression is the logistic
transform of the linear score. -/
def predictProba (lr : FittedLR) (row : List ℝ) : ℝ :=
  expit (dot lr.coef row + lr.intercept)

/-- The Python exceptions relevant to this module: the ValueError raised by
sklearn.utils.indexable on a length mismatch, the AttributeError raised when
predict reads self.map_ / self.lr_ before fit set them, the ValueError
raised by unpacking a 3-element list into two assignment targets, and an
explicit numerical-error condition (which the spec demands for a zero slope
but the code never raises). -/
inductive PyError
  | validationError
  | stateError
  | unpackError
  | numericalError
deriving DecidableEq

/-- Fitted state of the full 3-parameter model: self.map_ = [a, b, m] with
a or b possibly None, plus self.lr_. -/
structure BetaState where
  a : Option ℝ
  b : Option ℝ
  m : ℝ
  lr : FittedLR

/-- Fitted state of the 2-parameter (a = b, free m) model.  The midpoint is
an Option because the midpoint expression expit(inter / a) leaves IEEE
territory when a = 0 (see amMidpoint); the fit of this variant in fact never
constructs this state at all (see betaAMFit). -/
structure AMState where
  a : ℝ
  b : ℝ
  m : Option ℝ
  lr : FittedLR

/-- Fitted state of the 2-parameter (free a, b; m = 0.5) model. -/
structure ABState where
  a : ℝ
  b : ℝ
  m : ℝ
  lr : FittedLR

/-- Fitted state of the 1-parameter (a = b, m = 0.5) model. -/
structure AState where
  a : ℝ
  b : ℝ
  m : ℝ
  lr : FittedLR

/-- The 2-wide feature matrix of the full model: rows
[ln(clip(s)), -ln(1 - clip(s))], built by clipping and then
x = hstack((df, 1 - df)); x = log(x); x[:, 1] *= -1
(lines 56-63 and 109-115 of beta_calibration.py). -/
def fullFeatures (X : List ℝ) : List (List ℝ) :=
  (X.map npClip).map fun s => [Real.log s, -Real.log (1 - s)]

/-- The reduced single-column matrix x[:, 0] = [ln(clip(s))] used when the
model degenerates to b = None. -/
def col1Features (X : List ℝ) : List (List ℝ) :=
  (X.map npClip).map fun s => [Real.log s]

/-- The reduced single-column matrix x[:, 1] = [-ln(1 - clip(s))] used when
the model degenerates to a = None. -/
def col2Features (X : List ℝ) : List (List ℝ) :=
  (X.map npClip).map fun s => [-Real.log (1 - s)]

/-- The single-column logit matrix x = log(df / (1 - df)) used by the two
equal-slope variants (lines 173, 203, 341, 370). -/
def logitFeatures (X : List ℝ) : List (List ℝ) :=
  (X.map npClip).map fun s => [Real.log (s / (1 - s))]

/-- The 2-wide feature matrix x = log(2 * hstack((df, 1 - df))) of the
free-slope fixed-midpoint model (lines 256-257, 287-288). -/
def abFeatures (X : List ℝ) : List (List ℝ) :=
  (X.map npClip).map fun s => [Real.log (2 * s), Real.log (2 * (1 - s))]

/-- Midpoint recovery of the full model (lines 88-90): with a_ = a or 0 and
b_ = b or 0, run the opaque bounded scalar minimizer on
|b_ * log(1 - mh) - a_ * log(mh) - inter| over [0, 1]. -/
def betaMidpoint (minzr : (ℝ → ℝ) → ℝ × ℝ → ℝ) (av bv inter : ℝ) : ℝ :=
  minzr (fun mh => |bv * Real.log (1 - mh) - av * Real.log mh - inter|) (0, 1)

/-- Fit of the full 3-parameter model (lines 32-94): validate lengths, clip,
build the 2-wide features, run the solver, then the sign-based degeneracy
branches checked in the source order (coefs[0] < 0 first, then
coefs[1] < 0), and finally the midpoint minimisation.  The solver result of
whichever fit call was last is stored as self.lr_. -/
def betaFit (solver : Solver) (minzr : (ℝ → ℝ) → ℝ × ℝ → ℝ)
    (X : List ℝ) (y : List ℕ) (sw : Option (List ℝ)) : Except PyError BetaState :=
  if X.length ≠ y.length then .error .validationError else
  let lr0 := lrFit solver (fullFeatures X) y sw true
  if lr0.coef.getD 0 0 < 0 then
    let lr1 := lrFit solver (col2Features X) y sw true
    .ok ⟨none, some (lr1.coef.getD 0 0),
         betaMidpoint minzr 0 (lr1.coef.getD 0 0) lr1.intercept, lr1⟩
  else if lr0.coef.getD 1 0 < 0 then
    let lr1 := lrFit solver (col1Features X) y sw true
    .ok ⟨some (lr1.coef.getD 0 0), none,
         betaMidpoint minzr (lr1.coef.getD 0 0) 0 lr1.intercept, lr1⟩
  else
    .ok ⟨some (lr0.coef.getD 0 0), some (lr0.coef.getD 1 0),
         betaMidpoint minzr (lr0.coef.getD 0 0) (lr0.coef.getD 1 0) lr0.intercept, lr0⟩

/-- The feature rows the full model feeds to predict_proba (lines 109-120):
rebuild the 2-wide transform, then select x[:, 1] if the stored a is None,
x[:, 0] if the stored b is None, and the full matrix otherwise. -/
def betaPredictRows (st : BetaState) (S : List ℝ) : List (List ℝ) :=
  match st.a, st.b with
  | none, _ => (fullFeatures S).map fun row => [row.getD 1 0]
  | some _, none => (fullFeatures S).map fun row => [row.getD 0 0]
  | some _, some _ => fullFeatures S

/-- Predict of the full model (lines 96-121).  An unfitted instance (state
none: self.map_ and self.lr_ were never set) fails with the state error. -/
def betaPredict (st : Option BetaState) (S : List ℝ) : Except PyError (List ℝ) :=
  match st with
  | none => .error .stateError
  | some st => .ok ((betaPredictRows st S).map (predictProba st.lr))

/-- The closed-form midpoint expression m = expit(inter / a) of the
equal-slope free-midpoint model (line 180).  When a = 0 the division is an
IEEE division by zero: with warnings.filterwarnings("ignore") in effect it
silently yields a non-finite quotient (inf, -inf or nan) and hence a
garbage midpoint; the result none models that non-finite outcome, and no
exception is raised at this point. -/
def amMidpoint (inter a : ℝ) : Option ℝ :=
  if a = 0 then none else some (expit (inter / a))

/-- Fit of the equal-slope free-midpoint model (lines 143-184): validate
lengths, clip, build the logit column, run the solver, read a = b =
coefs[0] and the intercept, compute m = expit(inter / a) -- and then
line 182 executes self.map_, self.lr_ = [a, b, m], which unpacks a
3-element list into two assignment targets and therefore raises
ValueError on every call, before any attribute is assigned. -/
def betaAMFit (solver : Solver) (X : List ℝ) (y : List ℕ)
    (sw : Option (List ℝ)) : Except PyError AMState :=
  if X.length ≠ y.length then .error .validationError else
  let lr := lrFit solver (logitFeatures X) y sw true
  let a := lr.coef.getD 0 0
  let b := a
  let m := amMidpoint lr.intercept a
  .error .unpackError

/-- Predict of the equal-slope free-midpoint model (lines 186-204). -/
def betaAMPredict (st : Option AMState) (S : List ℝ) : Except PyError (List ℝ) :=
  match st with
  | none => .error .stateError
  | some st => .ok ((logitFeatures S).map (predictProba st.lr))

/-- The per-score probability the equal-slope free-midpoint predict computes:
predict on S is the map of this function over S. -/
def amPredictOne (lr : FittedLR) (s : ℝ) : ℝ :=
  predictProba lr [Real.log (npClip s / (1 - npClip s))]

/-- Fit of the free-slope fixed-midpoint model (lines 226-268): intercept
suppressed, a = coefs[0], b = -coefs[1], m = 0.5. -/
def betaABFit (solver : Solver) (X : List ℝ) (y : List ℕ)
    (sw : Option (List ℝ)) : Except PyError ABState :=
  if X.length ≠ y.length then .error .validationError else
  let lr := lrFit solver (abFeatures X) y sw false
  .ok ⟨lr.coef.getD 0 0, -(lr.coef.getD 1 0), 1 / 2, lr⟩

/-- Predict of the free-slope fixed-midpoint model (lines 270-289). -/
def betaABPredict (st : Option ABState) (S : List ℝ) : Except PyError (List ℝ) :=
  match st with
  | none => .error .stateError
  | some st => .ok ((abFeatures S).map (predictProba st.lr))

/-- Fit of the equal-slope fixed-midpoint model (lines 311-351): intercept
suppressed, a = b = coefs[0], m = 0.5; here line 349 correctly assigns
self.map_, self.lr_ = [a, b, m], lr. -/
def betaAFit (solver : Solver) (X : List ℝ) (y : List ℕ)
    (sw : Option (List ℝ)) : Except PyError AState :=
  if X.length ≠ y.length then .error .validationError else
  let lr := lrFit solver (logitFeatures X) y sw false
  .ok ⟨lr.coef.getD 0 0, lr.coef.getD 0 0, 1 / 2, lr⟩

/-- Predict of the equal-slope fixed-midpoint model (lines 353-371). -/
def betaAPredict (st : Option AState) (S : List ℝ) : Except PyError (List ℝ) :=
  match st with
  | none => .error .stateError
  | some st => .ok ((logitFeatures S).map (predictProba st.lr))

/-- The per-score probability the equal-slope fixed-midpoint predict
computes: predict on S is the map of this function over S. -/
def aPredictOne (lr : FittedLR) (s : ℝ) : ℝ :=
  predictProba lr [Real.log (npClip s / (1 - npClip s))]

/-- Modelled from the spec: the logistic log-likelihood the external
logistic-regression solver optimises, for a single feature column xs with
no intercept -- the objective underlying the end-to-end scenario of the
specification. -/
def sigmoidLL (xs : List ℝ) (ys : List ℕ) (a : ℝ) : ℝ :=
  ((xs.zip ys).map fun p =>
    if p.2 = 1 then Real.log (expit (a * p.1))
    else Real.log (1 - expit (a * p.1))).sum

/-- The scores of the end-to-end scenario. -/
def c9scores : List ℝ := [1 / 10, 2 / 10, 3 / 10, 7 / 10, 8 / 10, 9 / 10]

/-- The labels of the end-to-end scenario. -/
def c9labels : List ℕ := [0, 0, 0, 1, 1, 1]

/-- The flattened logit feature column fit builds for the end-to-end
scenario. -/
def c9x : List ℝ := c9scores.map fun s => Real.log (npClip s / (1 - npClip s))

/-- The process-wide state fit and predict can touch: the warnings filter
(warnings.filterwarnings("ignore") suppresses all warnings process-wide)
and an abstract stand-in for every other piece of state outside the model
instance. -/
structure World where
  warningsSuppressed : Bool
  otherGlobal : ℕ

/-- The effect of one fit call on the process-wide state: the single
effectful statement warnings.filterwarnings("ignore") (lines 54, 166, 249,
334) sits after the length validation of lines 51-53 (resp. 162-164,
245-247, 330-332), so it executes exactly when validation passes, and it is
never undone. -/
def fitWarnEffect (X : List ℝ) (y : List ℕ) (w : World) : World :=
  if X.length ≠ y.length then w else { w with warningsSuppressed := true }

/-- World-threaded fit of the full model. -/
def betaFitW (solver : Solver) (minzr : (ℝ → ℝ) → ℝ × ℝ → ℝ) (X : List ℝ)
    (y : List ℕ) (sw : Option (List ℝ)) (w : World) :
    Except PyError BetaState × World :=
  (betaFit solver minzr X y sw, fitWarnEffect X y w)

/-- World-threaded fit of the equal-slope free-midpoint model. -/
def betaAMFitW (solver : Solver) (X : List ℝ) (y : List ℕ)
    (sw : Option (List ℝ)) (w : World) : Except PyError AMState × World :=
  (betaAMFit solver X y sw, fitWarnEffect X y w)

/-- World-threaded fit of the free-slope fixed-midpoint model. -/
def betaABFitW (solver : Solver) (X : List ℝ) (y : List ℕ)
    (sw : Option (List ℝ)) (w : World) : Except PyError ABState × World :=
  (betaABFit solver X y sw, fitWarnEffect X y w)

/-- World-threaded fit of the equal-slope fixed-midpoint model. -/
def betaAFitW (solver : Solver) (X : List ℝ) (y : List ℕ)
    (sw : Option (List ℝ)) (w : World) : Except PyError AState × World :=
  (betaAFit solver X y sw, fitWarnEffect X y w)

/-- World-threaded predict of the full model: the predict bodies contain no
effectful statement, so the world passes through unchanged. -/
def betaPredictW (st : Option BetaState) (S : List ℝ) (w : World) :
    Except PyError (List ℝ) × World :=
  (betaPredict st S, w)

/-- World-threaded predict of the equal-slope free-midpoint model. -/
def betaAMPredictW (st : Option AMState) (S : List ℝ) (w : World) :
    Except PyError (List ℝ) × World :=
  (betaAMPredict st S, w)

/-- World-threaded predict of the free-slope fixed-midpoint model. -/
def betaABPredictW (st : Option ABState) (S : List ℝ) (w : World) :
    Except PyError (List ℝ) × World :=
  (betaABPredict st S, w)

/-- World-threaded predict of the equal-slope fixed-midpoint model. -/
def betaAPredictW (st : Option AState) (S : List ℝ) (w : World) :
    Except PyError (List ℝ) × World :=
  (betaAPredict st S, w)

/-- A concrete solver for witnesses: coefficient row [1], intercept 0. -/
def solver1 : Solver := fun _ _ _ _ => ([1], 0)

/-- A concrete solver for witnesses: coefficient row [1, 1], intercept 0. -/
def solver11 : Solver := fun _ _ _ _ => ([1, 1], 0)

/-- A concrete bounded minimizer for witnesses. -/
def zeroMin : (ℝ → ℝ) → ℝ × ℝ → ℝ := fun _ _ => 0

end

/-! Basic facts about the clipping margin and the clip function. -/

theorem npEps_pos : 0 < npEps := by norm_num [npEps]

theorem npEps_le_one_sub : npEps ≤ 1 - npEps := by norm_num [npEps]

theorem one_sub_npEps_lt_one : 1 - npEps < 1 := by norm_num [npEps]

theorem npClip_le (s : ℝ) : npClip s ≤ 1 - npEps := min_le_right _ _

theorem npClip_ge (s : ℝ) : npEps ≤ npClip s :=
  le_min (le_max_right _ _) npEps_le_one_sub

theorem npClip_pos (s : ℝ) : 0 < npClip s :=
  lt_of_lt_of_le npEps_pos (npClip_ge s)

theorem npClip_lt_one (s : ℝ) : npClip s < 1 :=
  lt_of_le_of_lt (npClip_le s) one_sub_npEps_lt_one

theorem one_sub_npClip_pos (s : ℝ) : 0 < 1 - npClip s := by
  linarith [npClip_lt_one s]

theorem npClip_mono {s t : ℝ} (h : s ≤ t) : npClip s ≤ npClip t :=
  min_le_min (max_le_max h le_rfl) le_rfl

theorem npClip_eq_self {s : ℝ} (h1 : npEps ≤ s) (h2 : s ≤ 1 - npEps) :
    npClip s = s := by
  rw [npClip, max_eq_left h1, min_eq_left h2]

/-! Basic facts about the logistic sigmoid. -/

theorem expit_pos (z : ℝ) : 0 < expit z := by
  unfold expit; positivity

theorem expit_lt_one (z : ℝ) : expit z < 1 := by
  unfold expit
  rw [div_lt_one (by positivity)]
  linarith [Real.exp_pos (-z)]

theorem expit_zero : expit 0 = 1 / 2 := by
  unfold expit
  rw [neg_zero, Real.exp_zero]
  norm_num

theorem expit_le_expit {z w : ℝ} (h : z ≤ w) : expit z ≤ expit w := by
  unfold expit
  refine one_div_le_one_div_of_le (by positivity) ?_
  have hexp := Real.exp_le_exp.2 (neg_le_neg h)
  linarith

theorem expit_lt_expit {z w : ℝ} (h : z < w) : expit z < expit w := by
  unfold expit
  refine one_div_lt_one_div_of_lt (by positivity) ?_
  have hexp := Real.exp_lt_exp.2 (neg_lt_neg h)
  linarith

theorem expit_lt_half {z : ℝ} (h : z < 0) : expit z < 1 / 2 := by
  have hmono := expit_lt_expit h
  rwa [expit_zero] at hmono

theorem half_lt_expit {z : ℝ} (h : 0 < z) : 1 / 2 < expit z := by
  have hmono := expit_lt_expit h
  rwa [expit_zero] at hmono

theorem expit_le_half {z : ℝ} (h : z ≤ 0) : expit z ≤ 1 / 2 := by
  have hmono := expit_le_expit h
  rwa [expit_zero] at hmono

theorem half_le_expit {z : ℝ} (h : 0 ≤ z) : 1 / 2 ≤ expit z := by
  have hmono := expit_le_expit h
  rwa [expit_zero] at hmono

theorem dot_single (c : List ℝ) (t : ℝ) : dot c [t] = c.getD 0 0 * t := by
  cases c <;> simp [dot]

theorem logit_le_logit {t1 t2 : ℝ} (h1 : 0 < t1) (h12 : t1 ≤ t2) (h2 : t2 < 1) :
    Real.log (t1 / (1 - t1)) ≤ Real.log (t2 / (1 - t2)) := by
  have ht2 : 0 < 1 - t2 := by linarith
  have ht1 : 0 < 1 - t1 := by linarith
  refine Real.log_le_log (by positivity) ?_
  exact div_le_div₀ (by linarith) h12 ht2 (by linarith)

theorem lrFit_intercept_false (solver : Solver) (x : List (List ℝ))
    (y : List ℕ) (sw : Option (List ℝ)) :
    (lrFit solver x y sw false).intercept = 0 := rfl

theorem betaAFit_ok (solver : Solver) (X : List ℝ) (y : List ℕ)
    (sw : Option (List ℝ)) (h : X.length = y.length) :
    betaAFit solver X y sw =
      .ok ⟨(lrFit solver (logitFeatures X) y sw false).coef.getD 0 0,
           (lrFit solver (logitFeatures X) y sw false).coef.getD 0 0, 1 / 2,
           lrFit solver (logitFeatures X) y sw false⟩ := by
  unfold betaAFit
  rw [if_neg (not_ne_iff.2 h)]

/-! Monotonicity of the logistic log-likelihood in the single coefficient,
for data whose feature signs separate the two classes. -/

theorem sigmoidLL_mono (xs : List ℝ) (ys : List ℕ)
    (hsig : ∀ p ∈ xs.zip ys, (p.2 = 1 → 0 < p.1) ∧ (p.2 ≠ 1 → p.1 < 0))
    {a1 a2 : ℝ} (ha : a1 ≤ a2) : sigmoidLL xs ys a1 ≤ sigmoidLL xs ys a2 := by
  unfold sigmoidLL
  refine List.sum_le_sum ?_
  intro p hp
  rcases hsig p hp with ⟨hpos, hneg⟩
  split_ifs with hy
  · have hx := hpos hy
    have hmul : a1 * p.1 ≤ a2 * p.1 := mul_le_mul_of_nonneg_right ha hx.le
    exact Real.log_le_log (expit_pos _) (expit_le_expit hmul)
  · have hx := hneg hy
    have hmul : a2 * p.1 ≤ a1 * p.1 := mul_le_mul_of_nonpos_right ha hx.le
    have hle : expit (a2 * p.1) ≤ expit (a1 * p.1) := expit_le_expit hmul
    refine Real.log_le_log (by linarith [expit_lt_one (a1 * p.1)]) ?_
    linarith

theorem sigmoidLL_strict (xs : List ℝ) (ys : List ℕ)
    (hsig : ∀ p ∈ xs.zip ys, (p.2 = 1 → 0 < p.1) ∧ (p.2 ≠ 1 → p.1 < 0))
    {a1 a2 : ℝ} (ha : a1 < a2) (hne : xs.zip ys ≠ []) :
    sigmoidLL xs ys a1 < sigmoidLL xs ys a2 := by
  unfold sigmoidLL
  refine List.sum_lt_sum _ _ ?_ ?_
  · intro p hp
    rcases hsig p hp with ⟨hpos, hneg⟩
    split_ifs with hy
    · have hx := hpos hy
      have hmul : a1 * p.1 ≤ a2 * p.1 := mul_le_mul_of_nonneg_right ha.le hx.le
      exact Real.log_le_log (expit_pos _) (expit_le_expit hmul)
    · have hx := hneg hy
      have hmul : a2 * p.1 ≤ a1 * p.1 := mul_le_mul_of_nonpos_right ha.le hx.le
      have hle : expit (a2 * p.1) ≤ expit (a1 * p.1) := expit_le_expit hmul
      refine Real.log_le_log (by linarith [expit_lt_one (a1 * p.1)]) ?_
      linarith
  · obtain ⟨p, rest, hcons⟩ := List.exists_cons_of_ne_nil hne
    refine ⟨p, by rw [hcons]; exact List.mem_cons_self p rest, ?_⟩
    rcases hsig p (by rw [hcons]; exact List.mem_cons_self p rest) with ⟨hpos, hneg⟩
    split_ifs with hy
    · have hx := hpos hy
      have hmul : a1 * p.1 < a2 * p.1 := mul_lt_mul_of_pos_right ha hx
      exact Real.log_lt_log (expit_pos _) (expit_lt_expit hmul)
    · have hx := hneg hy
      have hmul : a2 * p.1 < a1 * p.1 := mul_lt_mul_of_neg_right ha hx
      have hlt : expit (a2 * p.1) < expit (a1 * p.1) := expit_lt_expit hmul
      refine Real.log_lt_log (by linarith [expit_lt_one (a1 * p.1)]) ?_
      linarith

/-! The concrete feature column of the end-to-end scenario. -/

theorem c9x_eq : c9x = [Real.log ((1 : ℝ) / 9), Real.log ((1 : ℝ) / 4),
    Real.log ((3 : ℝ) / 7), Real.log ((7 : ℝ) / 3), Real.log (4 : ℝ),
    Real.log (9 : ℝ)] := by
  have e1 : npClip (1 / 10) = 1 / 10 :=
    npClip_eq_self (by norm_num [npEps]) (by norm_num [npEps])
  have e2 : npClip (2 / 10) = 2 / 10 :=
    npClip_eq_self (by norm_num [npEps]) (by norm_num [npEps])
  have e3 : npClip (3 / 10) = 3 / 10 :=
    npClip_eq_self (by norm_num [npEps]) (by norm_num [npEps])
  have e4 : npClip (7 / 10) = 7 / 10 :=
    npClip_eq_self (by norm_num [npEps]) (by norm_num [npEps])
  have e5 : npClip (8 / 10) = 8 / 10 :=
    npClip_eq_self (by norm_num [npEps]) (by norm_num [npEps])
  have e6 : npClip (9 / 10) = 9 / 10 :=
    npClip_eq_self (by norm_num [npEps]) (by norm_num [npEps])
  unfold c9x c9scores
  simp only [List.map_cons, List.map_nil, e1, e2, e3, e4, e5, e6]
  norm_num

theorem c9_signs : ∀ p ∈ c9x.zip c9labels,
    (p.2 = 1 → 0 < p.1) ∧ (p.2 ≠ 1 → p.1 < 0) := by
  rw [c9x_eq]
  intro p hp
  simp only [c9labels, List.zip_cons_cons, List.zip_nil_left, List.mem_cons,
    List.not_mem_nil, or_false] at hp
  rcases hp with rfl | rfl | rfl | rfl | rfl | rfl
  · exact ⟨fun h => by simp at h, fun _ => Real.log_neg (by norm_num) (by norm_num)⟩
  · exact ⟨fun h => by simp at h, fun _ => Real.log_neg (by norm_num) (by norm_num)⟩
  · exact ⟨fun h => by simp at h, fun _ => Real.log_neg (by norm_num) (by norm_num)⟩
  · exact ⟨fun _ => Real.log_pos (by norm_num), fun h => absurd rfl h⟩
  · exact ⟨fun _ => Real.log_pos (by norm_num), fun h => absurd rfl h⟩
  · exact ⟨fun _ => Real.log_pos (by norm_num), fun h => absurd rfl h⟩

theorem c9_ll_le {a : ℝ} (ha : a ≤ 0) :
    sigmoidLL c9x c9labels a ≤ sigmoidLL c9x c9labels 0 :=
  sigmoidLL_mono _ _ c9_signs ha

theorem c9_ll_zero_lt_one : sigmoidLL c9x c9labels 0 < sigmoidLL c9x c9labels 1 :=
  sigmoidLL_strict _ _ c9_signs (by norm_num)
    (by rw [c9x_eq]; simp [c9labels])

/-- C1: contrary to the claim that fit of the equal-slope free-midpoint
model completes and stores the ShapeParameters with the solver state, every
call whose scores and labels have equal length raises the ValueError from
unpacking the 3-element list [a, b, m] into the two targets map_ and lr_
(line 182), so fit never completes, never returns self and never stores
anything. -/
theorem am_fit_raises_unpack (solver : Solver) (X : List ℝ) (y : List ℕ)
    (sw : Option (List ℝ)) (hlen : X.length = y.length) :
    betaAMFit solver X y sw = .error .unpackError := by
  unfold betaAMFit
  rw [if_neg (not_ne_iff.2 hlen)]

theorem am_fit_raises_unpack_witness :
    betaAMFit solver1 [3 / 10, 7 / 10] [0, 1] none = .error .unpackError :=
  am_fit_raises_unpack solver1 [3 / 10, 7 / 10] [0, 1] none rfl

/-- C2: contrary to the claim, a zero fitted slope does not surface as an
explicit numerical error: the midpoint expression expit(inter / a) at a = 0
is an IEEE division by zero that, with the warnings filter set to ignore,
silently yields a non-finite quotient (modelled by amMidpoint returning
none), and no execution path of the fit of the equal-slope free-midpoint
model ever produces a numerical-error condition; the only stored-parameter
protection is accidental, since line 182 raises an unrelated unpack
ValueError on every call. -/
theorem am_zero_slope_silent (inter : ℝ) :
    amMidpoint inter 0 = none ∧
      ∀ (solver : Solver) (X : List ℝ) (y : List ℕ) (sw : Option (List ℝ)),
        betaAMFit solver X y sw ≠ .error .numericalError := by
  constructor
  · unfold amMidpoint
    rw [if_pos rfl]
  · intro solver X y sw
    unfold betaAMFit
    split <;> simp

theorem am_zero_slope_silent_witness :
    amMidpoint 3 0 = none ∧
      ∀ (solver : Solver) (X : List ℝ) (y : List ℕ) (sw : Option (List ℝ)),
        betaAMFit solver X y sw ≠ .error .numericalError :=
  am_zero_slope_silent 3

/-- C5: the shared clipping stage used by fit and predict of all four
variants maps every score (including exactly 0 and 1) into
[npEps, 1 - npEps]; hence the clipped score and its complement are strictly
positive (so every logarithm in the transforms receives a strictly positive
argument and every transformed value is finite), and the logit ratio is
strictly positive as well. -/
theorem clip_engages_bounds (s : ℝ) :
    npEps ≤ npClip s ∧ npClip s ≤ 1 - npEps ∧ 0 < npClip s ∧ npClip s < 1 ∧
      0 < 1 - npClip s ∧ 0 < npClip s / (1 - npClip s) ∧
      npClip 0 = npEps ∧ npClip 1 = 1 - npEps :=
  ⟨npClip_ge s, npClip_le s, npClip_pos s, npClip_lt_one s,
   one_sub_npClip_pos s, div_pos (npClip_pos s) (one_sub_npClip_pos s),
   by rw [npClip, max_eq_right npEps_pos.le, min_eq_left npEps_le_one_sub],
   by rw [npClip, max_eq_left (by linarith [npEps_le_one_sub, npEps_pos]),
          min_eq_right one_sub_npEps_lt_one.le]⟩

theorem clip_engages_bounds_witness :
    npEps ≤ npClip 2 ∧ npClip 2 ≤ 1 - npEps ∧ 0 < npClip 2 ∧ npClip 2 < 1 ∧
      0 < 1 - npClip 2 ∧ 0 < npClip 2 / (1 - npClip 2) ∧
      npClip 0 = npEps ∧ npClip 1 = 1 - npEps :=
  clip_engages_bounds 2

/-- C6: on an instance whose fit never completed (state none: self.map_ and
self.lr_ were never assigned), predict of every variant fails with the
state error and never produces probabilities. -/
theorem predict_requires_fit (S : List ℝ) :
    betaPredict none S = .error .stateError ∧
      betaAMPredict none S = .error .stateError ∧
      betaABPredict none S = .error .stateError ∧
      betaAPredict none S = .error .stateError :=
  ⟨rfl, rfl, rfl, rfl⟩

theorem predict_requires_fit_witness :
    betaPredict none [1 / 2] = .error .stateError ∧
      betaAMPredict none [1 / 2] = .error .stateError ∧
      betaABPredict none [1 / 2] = .error .stateError ∧
      betaAPredict none [1 / 2] = .error .stateError :=
  predict_requires_fit [1 / 2]

/-- C7: when the scores and labels have different lengths, fit of every
variant fails with the validation error; the result is this error for every
solver, so no feature matrix is ever handed to the solver. -/
theorem fit_rejects_length_mismatch (solver : Solver)
    (minzr : (ℝ → ℝ) → ℝ × ℝ → ℝ) (X : List ℝ) (y : List ℕ)
    (sw : Option (List ℝ)) (h : X.length ≠ y.length) :
    betaFit solver minzr X y sw = .error .validationError ∧
      betaAMFit solver X y sw = .error .validationError ∧
      betaABFit solver X y sw = .error .validationError ∧
      betaAFit solver X y sw = .error .validationError := by
  refine ⟨?_, ?_, ?_, ?_⟩
  · unfold betaFit; rw [if_pos h]
  · unfold betaAMFit; rw [if_pos h]
  · unfold betaABFit; rw [if_pos h]
  · unfold betaAFit; rw [if_pos h]

theorem fit_rejects_length_mismatch_witness :
    betaFit solver11 zeroMin [1 / 2] [0, 1] none = .error .validationError ∧
      betaAMFit solver11 [1 / 2] [0, 1] none = .error .validationError ∧
      betaABFit solver11 [1 / 2] [0, 1] none = .error .validationError ∧
      betaAFit solver11 [1 / 2] [0, 1] none = .error .validationError :=
  fit_rejects_length_mismatch solver11 zeroMin [1 / 2] [0, 1] none (by decide)

/-- C3: fit of the full model with initial 2-column coefficients (c0, c1):
if c0 < 0 it re-fits the solver on the second column only and stores
a = None with b the new coefficient; otherwise if c1 < 0 it re-fits on the
first column only and stores b = None with a the new coefficient; otherwise
it stores a = c0, b = c1 and keeps the original solver fit.  The first
branch needs only c0 < 0, so it also wins when both coefficients are
negative. -/
theorem full_fit_degeneracy_branches (solver : Solver)
    (minzr : (ℝ → ℝ) → ℝ × ℝ → ℝ) (X : List ℝ) (y : List ℕ)
    (sw : Option (List ℝ)) (hlen : X.length = y.length) :
    ((lrFit solver (fullFeatures X) y sw true).coef.getD 0 0 < 0 →
      betaFit solver minzr X y sw =
        .ok ⟨none, some ((lrFit solver (col2Features X) y sw true).coef.getD 0 0),
             betaMidpoint minzr 0
               ((lrFit solver (col2Features X) y sw true).coef.getD 0 0)
               (lrFit solver (col2Features X) y sw true).intercept,
             lrFit solver (col2Features X) y sw true⟩) ∧
    (¬ (lrFit solver (fullFeatures X) y sw true).coef.getD 0 0 < 0 →
      (lrFit solver (fullFeatures X) y sw true).coef.getD 1 0 < 0 →
      betaFit solver minzr X y sw =
        .ok ⟨some ((lrFit solver (col1Features X) y sw true).coef.getD 0 0), none,
             betaMidpoint minzr
               ((lrFit solver (col1Features X) y sw true).coef.getD 0 0) 0
               (lrFit solver (col1Features X) y sw true).intercept,
             lrFit solver (col1Features X) y sw true⟩) ∧
    (¬ (lrFit solver (fullFeatures X) y sw true).coef.getD 0 0 < 0 →
      ¬ (lrFit solver (fullFeatures X) y sw true).coef.getD 1 0 < 0 →
      betaFit solver minzr X y sw =
        .ok ⟨some ((lrFit solver (fullFeatures X) y sw true).coef.getD 0 0),
             some ((lrFit solver (fullFeatures X) y sw true).coef.getD 1 0),
             betaMidpoint minzr
               ((lrFit solver (fullFeatures X) y sw true).coef.getD 0 0)
               ((lrFit solver (fullFeatures X) y sw true).coef.getD 1 0)
               (lrFit solver (fullFeatures X) y sw true).intercept,
             lrFit solver (fullFeatures X) y sw true⟩) := by
  refine ⟨fun h0 => ?_, fun h0 h1 => ?_, fun h0 h1 => ?_⟩
  · simp only [betaFit]
    rw [if_neg (not_ne_iff.2 hlen), if_pos h0]
  · simp only [betaFit]
    rw [if_neg (not_ne_iff.2 hlen), if_neg h0, if_pos h1]
  · simp only [betaFit]
    rw [if_neg (not_ne_iff.2 hlen), if_neg h0, if_neg h1]

theorem full_fit_degeneracy_branches_witness :
    betaFit solver11 zeroMin [1 / 2] [1] none =
      .ok ⟨some ((lrFit solver11 (fullFeatures [1 / 2]) [1] none true).coef.getD 0 0),
           some ((lrFit solver11 (fullFeatures [1 / 2]) [1] none true).coef.getD 1 0),
           betaMidpoint zeroMin
             ((lrFit solver11 (fullFeatures [1 / 2]) [1] none true).coef.getD 0 0)
             ((lrFit solver11 (fullFeatures [1 / 2]) [1] none true).coef.getD 1 0)
             (lrFit solver11 (fullFeatures [1 / 2]) [1] none true).intercept,
           lrFit solver11 (fullFeatures [1 / 2]) [1] none true⟩ :=
  (full_fit_degeneracy_branches solver11 zeroMin [1 / 2] [1] none rfl).2.2
    (by norm_num [lrFit, solver11]) (by norm_num [lrFit, solver11])

/-- C4: for any state the full-model fit produced (on nonempty training
scores, as the real solver rejects empty data), predict feeds the stored
solver rows of exactly the width that solver was fitted on: the reduced
second column when a is None, the reduced first column when b is None, and
the 2-wide matrix otherwise. -/
theorem full_predict_layout_consistent (solver : Solver)
    (minzr : (ℝ → ℝ) → ℝ × ℝ → ℝ) (X : List ℝ) (y : List ℕ)
    (sw : Option (List ℝ)) (st : BetaState) (hne : X ≠ [])
    (hfit : betaFit solver minzr X y sw = .ok st) (S : List ℝ) :
    ((betaPredictRows st S).all fun row => row.length == st.lr.nFeatures) = true := by
  obtain ⟨x0, X', rfl⟩ : ∃ a l, X = a :: l := by
    cases X with
    | nil => exact absurd rfl hne
    | cons a l => exact ⟨a, l, rfl⟩
  simp only [betaFit] at hfit
  split at hfit
  · exact absurd hfit (by simp)
  · split at hfit
    · rw [Except.ok.injEq] at hfit
      subst hfit
      simp [betaPredictRows, lrFit, col2Features, fullFeatures, List.all_eq_true]
    · split at hfit
      · rw [Except.ok.injEq] at hfit
        subst hfit
        simp [betaPredictRows, lrFit, col1Features, fullFeatures, List.all_eq_true]
      · rw [Except.ok.injEq] at hfit
        subst hfit
        simp [betaPredictRows, lrFit, fullFeatures, List.all_eq_true]

theorem full_predict_layout_witness :
    ((betaPredictRows ⟨some 1, some 1, 0, ⟨[1, 1], 0, 2⟩⟩ [1 / 2]).all
      fun row => row.length ==
        (BetaState.mk (some 1) (some 1) 0 ⟨[1, 1], 0, 2⟩).lr.nFeatures) = true :=
  full_predict_layout_consistent solver11 zeroMin [1 / 2] [1] none
    ⟨some 1, some 1, 0, ⟨[1, 1], 0, 2⟩⟩ (by simp)
    (by norm_num [betaFit, lrFit, solver11, fullFeatures, betaMidpoint, zeroMin])
    [1 / 2]

/-- C8: for the two equal-slope variants, whose fits store the slope
a = b as the head coefficient of the fitted solver, the per-score predict
is non-decreasing in the input score whenever that stored slope is
positive. -/
theorem equal_slope_predict_monotone (lr : FittedLR)
    (ha : 0 < lr.coef.getD 0 0) {s1 s2 : ℝ} (h12 : s1 ≤ s2) :
    amPredictOne lr s1 ≤ amPredictOne lr s2 ∧
      aPredictOne lr s1 ≤ aPredictOne lr s2 := by
  have key : predictProba lr [Real.log (npClip s1 / (1 - npClip s1))] ≤
      predictProba lr [Real.log (npClip s2 / (1 - npClip s2))] := by
    unfold predictProba
    rw [dot_single, dot_single]
    refine expit_le_expit ?_
    have hlog : Real.log (npClip s1 / (1 - npClip s1)) ≤
        Real.log (npClip s2 / (1 - npClip s2)) :=
      logit_le_logit (npClip_pos s1) (npClip_mono h12) (npClip_lt_one s2)
    have hmul := mul_le_mul_of_nonneg_left hlog ha.le
    linarith
  exact ⟨key, key⟩

theorem equal_slope_predict_monotone_witness :
    amPredictOne ⟨[1], 0, 1⟩ (3 / 10) ≤ amPredictOne ⟨[1], 0, 1⟩ (6 / 10) ∧
      aPredictOne ⟨[1], 0, 1⟩ (3 / 10) ≤ aPredictOne ⟨[1], 0, 1⟩ (6 / 10) :=
  equal_slope_predict_monotone ⟨[1], 0, 1⟩ (by norm_num) (by norm_num)

/-- C9: fitting the equal-slope fixed-midpoint model on the end-to-end
scenario scores [0.1, 0.2, 0.3, 0.7, 0.8, 0.9] with labels
[0, 0, 0, 1, 1, 1], under the modelled solver guarantee that the returned
coefficient fits the logistic log-likelihood of the training column
strictly better than the zero coefficient, yields a stored slope a > 0,
predict(0.5) exactly 1/2 (the intercept is suppressed and logit(0.5) = 0),
predict(0.05) < 1/2 and predict(0.95) > 1/2. -/
theorem fixed_midpoint_end_to_end (solver : Solver) (st : AState)
    (hfit : betaAFit solver c9scores c9labels none = .ok st)
    (hll : sigmoidLL c9x c9labels st.a > sigmoidLL c9x c9labels 0) :
    0 < st.a ∧ aPredictOne st.lr (1 / 2) = 1 / 2 ∧
      aPredictOne st.lr (1 / 20) < 1 / 2 ∧
      1 / 2 < aPredictOne st.lr (19 / 20) := by
  rw [betaAFit_ok solver c9scores c9labels none (by rfl),
    Except.ok.injEq] at hfit
  subst hfit
  dsimp only at hll ⊢
  set lr := lrFit solver (logitFeatures c9scores) c9labels none false with hlrdef
  have hint : lr.intercept = 0 := lrFit_intercept_false _ _ _ _
  have ha : 0 < lr.coef.getD 0 0 := by
    by_contra hc0
    push_neg at hc0
    exact absurd hll (not_lt.2 (c9_ll_le hc0))
  have hhalf : npClip ((1 : ℝ) / 2) = 1 / 2 :=
    npClip_eq_self (by norm_num [npEps]) (by norm_num [npEps])
  have h20 : npClip ((1 : ℝ) / 20) = 1 / 20 :=
    npClip_eq_self (by norm_num [npEps]) (by norm_num [npEps])
  have h95 : npClip ((19 : ℝ) / 20) = 19 / 20 :=
    npClip_eq_self (by norm_num [npEps]) (by norm_num [npEps])
  refine ⟨ha, ?_, ?_, ?_⟩
  · unfold aPredictOne predictProba
    rw [hhalf, dot_single, hint]
    have harg : ((1 : ℝ) / 2) / (1 - 1 / 2) = 1 := by norm_num
    rw [harg, Real.log_one, mul_zero, add_zero, expit_zero]
  · unfold aPredictOne predictProba
    rw [h20, dot_single, hint, add_zero]
    have harg : ((1 : ℝ) / 20) / (1 - 1 / 20) = 1 / 19 := by norm_num
    rw [harg]
    refine expit_lt_half ?_
    exact mul_neg_of_pos_of_neg ha (Real.log_neg (by norm_num) (by norm_num))
  · unfold aPredictOne predictProba
    rw [h95, dot_single, hint, add_zero]
    have harg : ((19 : ℝ) / 20) / (1 - 19 / 20) = 19 := by norm_num
    rw [harg]
    refine half_lt_expit ?_
    exact mul_pos ha (Real.log_pos (by norm_num))

theorem fixed_midpoint_end_to_end_witness :
    0 < (AState.mk 1 1 (1 / 2) ⟨[1], 0, 1⟩).a ∧
      aPredictOne (AState.mk 1 1 (1 / 2) ⟨[1], 0, 1⟩).lr (1 / 2) = 1 / 2 ∧
      aPredictOne (AState.mk 1 1 (1 / 2) ⟨[1], 0, 1⟩).lr (1 / 20) < 1 / 2 ∧
      1 / 2 < aPredictOne (AState.mk 1 1 (1 / 2) ⟨[1], 0, 1⟩).lr (19 / 20) :=
  fixed_midpoint_end_to_end solver1 ⟨1, 1, 1 / 2, ⟨[1], 0, 1⟩⟩
    (by norm_num [betaAFit, lrFit, solver1, logitFeatures, c9scores, c9labels])
    c9_ll_zero_lt_one

/-- C10 counterexample: a fit call that fails the length validation never
reaches the warnings.filterwarnings("ignore") statement, so, contrary to
the claim that EVERY fit call installs the process-wide suppression, the
warnings filter is left untouched on such a call. -/
theorem warn_suppression_counterexample :
    ((betaFitW solver11 zeroMin [1 / 2] [0, 1] none ⟨false, 0⟩).2).warningsSuppressed
      = false := rfl

/-- C10 (amended): every fit call, on every variant, that passes the
scores/labels length validation installs the process-wide unscoped warning
suppression, which is still in effect when fit finishes (whether it returns
or raises) regardless of the prior filter state; a call failing validation
leaves the process state untouched; and apart from this flag neither fit
nor predict touches any state outside the instance (the abstract rest of
the process state is preserved and predict passes the world through
unchanged). -/
theorem warn_suppression_after_validation (solver : Solver)
    (minzr : (ℝ → ℝ) → ℝ × ℝ → ℝ) (X : List ℝ) (y : List ℕ)
    (sw : Option (List ℝ)) (w : World) (h : X.length = y.length)
    (X2 : List ℝ) (y2 : List ℕ) (h2 : X2.length ≠ y2.length)
    (stB : Option BetaState) (stAM : Option AMState) (stAB : Option ABState)
    (stA : Option AState) (S : List ℝ) :
    (betaFitW solver minzr X y sw w).2 = ⟨true, w.otherGlobal⟩ ∧
      (betaAMFitW solver X y sw w).2 = ⟨true, w.otherGlobal⟩ ∧
      (betaABFitW solver X y sw w).2 = ⟨true, w.otherGlobal⟩ ∧
      (betaAFitW solver X y sw w).2 = ⟨true, w.otherGlobal⟩ ∧
      fitWarnEffect X2 y2 w = w ∧
      betaPredictW stB S w = (betaPredict stB S, w) ∧
      betaAMPredictW stAM S w = (betaAMPredict stAM S, w) ∧
      betaABPredictW stAB S w = (betaABPredict stAB S, w) ∧
      betaAPredictW stA S w = (betaAPredict stA S, w) := by
  have hw : fitWarnEffect X y w = ⟨true, w.otherGlobal⟩ := by
    unfold fitWarnEffect
    rw [if_neg (not_ne_iff.2 h)]
  have hw2 : fitWarnEffect X2 y2 w = w := by
    unfold fitWarnEffect
    rw [if_pos h2]
  exact ⟨hw, hw, hw, hw, hw2, rfl, rfl, rfl, rfl⟩

theorem warn_suppression_after_validation_witness :
    (betaFitW solver11 zeroMin [1 / 2] [1] none ⟨false, 5⟩).2 = ⟨true, 5⟩ ∧
      (betaAMFitW solver11 [1 / 2] [1] none ⟨false, 5⟩).2 = ⟨true, 5⟩ ∧
      (betaABFitW solver11 [1 / 2] [1] none ⟨false, 5⟩).2 = ⟨true, 5⟩ ∧
      (betaAFitW solver11 [1 / 2] [1] none ⟨false, 5⟩).2 = ⟨true, 5⟩ ∧
      fitWarnEffect [1 / 2] [0, 1] ⟨false, 5⟩ = ⟨false, 5⟩ ∧
      betaPredictW none [1 / 2] ⟨false, 5⟩ = (betaPredict none [1 / 2], ⟨false, 5⟩) ∧
      betaAMPredictW none [1 / 2] ⟨false, 5⟩ = (betaAMPredict none [1 / 2], ⟨false, 5⟩) ∧
      betaABPredictW none [1 / 2] ⟨false, 5⟩ = (betaABPredict none [1 / 2], ⟨false, 5⟩) ∧
      betaAPredictW none [1 / 2] ⟨false, 5⟩ = (betaAPredict none [1 / 2], ⟨false, 5⟩) :=
  warn_suppression_after_validation solver11 zeroMin [1 / 2] [1] none ⟨false, 5⟩
    rfl [1 / 2] [0, 1] (by decide) none none none none [1 / 2]

end BetaCalib
